import Mathlib

/-!
Verification development for the complaint lifecycle and routing engine of a
citizen complaint management backend (Express/Mongoose controllers).

The definitions below are a shallow embedding of the controller logic in
`src/controllers/complaintController.js` and of the institution / performance
admin controller (`src/unnamed/part_000`).  Timestamps are natural numbers
(milliseconds since an arbitrary epoch); `dayLength` is the length of one day
in those units.  HTTP plumbing (express-validator, `res.status(...)`) is
modelled by explicit error sums; the MongoDB store is a record of lists; the
best-effort notification dispatcher is modelled by boolean oracles giving the
outcome of each attempted dispatch.
-/

/-- Decidable equality of `Except` results, so that concrete runs of the
    fallible operations can be checked by `decide`. -/
instance exceptDecEq {ε α : Type} [DecidableEq ε] [DecidableEq α] :
    DecidableEq (Except ε α) := fun x y =>
  match x, y with
  | .ok a, .ok b =>
    if h : a = b then isTrue (by rw [h]) else isFalse (by intro hc; cases hc; exact h rfl)
  | .ok _, .error _ => isFalse (by intro hc; cases hc)
  | .error _, .ok _ => isFalse (by intro hc; cases hc)
  | .error e, .error f =>
    if h : e = f then isTrue (by rw [h]) else isFalse (by intro hc; cases hc; exact h rfl)

namespace CCMS

/-- Complaint status values (the enumerated identity strings of the schema). -/
inductive Status where
  | PENDING
  | IN_PROGRESS
  | RESOLVED
deriving DecidableEq, Repr

/-- A user document; `role` is `"citizen"` or `"institution"` as in the
    Mongoose `User` model used by `complaintController.js`. -/
structure User where
  id : Nat
  role : String
  province : String
  district : String
deriving DecidableEq, Repr

/-- A district department document (`DistrictDepartment` model):
    scoped to exactly one district. -/
structure Department where
  id : Nat
  district : String
deriving DecidableEq, Repr

/-- A complaint document.  `resolutionDate` is the resolution timestamp,
    absent until a RESOLVED transition stamps it. -/
structure Complaint where
  id : Nat
  title : String
  description : String
  category : String
  province : String
  district : String
  citizenId : Nat
  institutionId : Nat
  assignedDepartment : Nat
  status : Status
  submissionDate : Nat
  resolutionDeadline : Nat
  resolutionDate : Option Nat
deriving DecidableEq, Repr

/-- An append-only forwarding (escalation) audit record. -/
structure ForwardingRecord where
  complaintId : Nat
  fromInstitutionId : Nat
  toDepartmentId : Nat
  forwardingNote : String
deriving DecidableEq, Repr

/-- The persistent store: the collections the controllers read and write. -/
structure Store where
  complaints : List Complaint
  departments : List Department
  records : List ForwardingRecord
deriving DecidableEq, Repr

/-- One day, in timestamp units (milliseconds). -/
def dayLength : Nat := 86400000

/-- `calculateResolutionDeadline` (complaintController.js:38-60): switch on
    the category, adding 3 / 2 / 7 / 14 whole days to the current instant. -/
def calculateResolutionDeadline (category : String) (now : Nat) : Nat :=
  match category with
  | "WATER" | "ELECTRICITY" => now + 3 * dayLength
  | "PUBLIC_SAFETY" => now + 2 * dayLength
  | "ROADS" | "SANITATION" => now + 7 * dayLength
  | _ => now + 14 * dayLength

/-- `findAppropriateInstitution` (complaintController.js:9-35): first
    institution matching the exact (province, district) pair, else first
    institution in the province.  The category argument is accepted but not
    used in either query — the controller's own comment records this as a
    known limitation. -/
def findAppropriateInstitution (users : List User) (category province district : String) :
    Option User :=
  match users.find? (fun u =>
      u.role == "institution" && u.province == province && u.district == district) with
  | some institution => some institution
  | none => users.find? (fun u => u.role == "institution" && u.province == province)

/-- JavaScript truthiness of the optional deadline taken from a request body
    (`if (resolutionDeadline)`, `!newDeadline`): absent and the zero timestamp
    are falsy. -/
def deadlineTruthy : Option Nat → Bool
  | none => false
  | some d => d != 0

/-- Errors of `submitComplaint`. -/
inductive SubmitError where
  | onlyCitizens
  | noInstitutionFound
deriving DecidableEq, Repr

/-- Success payload of `submitComplaint`: the created complaint and the
    truthful `notificationSent` flag of the 201 response. -/
structure SubmitOk where
  complaint : Complaint
  notificationSent : Bool
deriving DecidableEq, Repr

/-- `submitComplaint` (complaintController.js:63-146): citizens only; find an
    institution via the two-tier geographic lookup, fail with a domain error
    when none exists; otherwise create the complaint with the category-based
    deadline and `assignedDepartment` initially the institution itself.
    `status := PENDING` and `resolutionDate := none` are the schema defaults
    of the `Complaint` model (Modelled from the spec: the Mongoose model file
    is not in the sources; the spec fixes PENDING as the initial state and the
    resolution timestamp as absent until resolution).  `notifyOk` is the
    outcome of the best-effort SUBMITTED dispatch; the response reports it
    truthfully and a failure is non-fatal. -/
def submitComplaint (now : Nat) (actorRole : String) (actorId : Nat)
    (title description category province district : String)
    (users : List User) (newId : Nat) (notifyOk : Bool) (s : Store) :
    Store × Except SubmitError SubmitOk :=
  if actorRole ≠ "citizen" then (s, .error .onlyCitizens)
  else
    match findAppropriateInstitution users category province district with
    | none => (s, .error .noInstitutionFound)
    | some institution =>
      let complaint : Complaint :=
        { id := newId
          title := title
          description := description
          category := category
          province := province
          district := district
          citizenId := actorId
          institutionId := institution.id
          assignedDepartment := institution.id
          status := .PENDING
          submissionDate := now
          resolutionDeadline := calculateResolutionDeadline category now
          resolutionDate := none }
      ({ s with complaints := s.complaints ++ [complaint] },
       .ok { complaint := complaint, notificationSent := notifyOk })

/-- Errors of `updateComplaintDeadline`. -/
inductive DeadlineError where
  | invalidDeadline
  | notFoundOrNotAuthorized
deriving DecidableEq, Repr

/-- `updateComplaintDeadline` (complaintController.js:293-332): reject when
    the supplied deadline is falsy or `new Date(newDeadline) < new Date()`
    (strictly before now); then look the complaint up by id AND owning
    institution in one query (missing and foreign are indistinguishable);
    on success persist the new deadline. -/
def updateComplaintDeadline (now actorId complaintId : Nat) (newDeadline : Option Nat)
    (s : Store) : Store × Except DeadlineError Complaint :=
  if !(deadlineTruthy newDeadline) || decide (newDeadline.getD 0 < now) then
    (s, .error .invalidDeadline)
  else
    match s.complaints.find? (fun c => c.id == complaintId && c.institutionId == actorId) with
    | none => (s, .error .notFoundOrNotAuthorized)
    | some c =>
      let c2 := { c with resolutionDeadline := newDeadline.getD 0 }
      ({ s with complaints := s.complaints.map (fun x => if x.id == c.id then c2 else x) },
       .ok c2)

/-- Errors of `updateComplaintStatus`. -/
inductive UpdateStatusError where
  | onlyInstitutions
  | notFound
  | notAuthorized
deriving DecidableEq, Repr

/-- Success payload of `updateComplaintStatus`: the saved complaint and the
    `notificationStatus.success` flag (true iff `notificationErrors` stayed
    empty). -/
structure UpdateStatusOk where
  complaint : Complaint
  notificationSuccess : Bool
deriving DecidableEq, Repr

/-- `updateComplaintStatus` (complaintController.js:335-418): institutions
    only; find by id, then check ownership; set the status unconditionally;
    when the new status is RESOLVED stamp `resolutionDate := now` and attempt
    a RESOLVED dispatch; when a truthy `resolutionDeadline` accompanies the
    request, assign it with no validation and attempt a DEADLINE_SET
    dispatch; caught dispatch errors accumulate in `notificationErrors` and
    the response flag is their emptiness.  `resolvedNotifyOk` and
    `deadlineNotifyOk` are the outcomes of the two possible dispatches. -/
def updateComplaintStatus (now : Nat) (actorRole : String) (actorId complaintId : Nat)
    (status : Status) (resolutionDeadline : Option Nat)
    (resolvedNotifyOk deadlineNotifyOk : Bool) (s : Store) :
    Store × Except UpdateStatusError UpdateStatusOk :=
  if actorRole ≠ "institution" then (s, .error .onlyInstitutions)
  else
    match s.complaints.find? (fun c => c.id == complaintId) with
    | none => (s, .error .notFound)
    | some c =>
      if c.institutionId ≠ actorId then (s, .error .notAuthorized)
      else
        let c1 := { c with status := status }
        let c2 := if status = .RESOLVED then { c1 with resolutionDate := some now } else c1
        let resolvedErrs : List String :=
          if status = .RESOLVED then (if resolvedNotifyOk then [] else ["resolved"]) else []
        let c3 :=
          if deadlineTruthy resolutionDeadline then
            { c2 with resolutionDeadline := resolutionDeadline.getD 0 }
          else c2
        let deadlineErrs : List String :=
          if deadlineTruthy resolutionDeadline then
            (if deadlineNotifyOk then [] else ["deadline"])
          else []
        ({ s with complaints :=
             s.complaints.map (fun x => if x.id == c.id then c3 else x) },
         .ok { complaint := c3,
               notificationSuccess := (resolvedErrs ++ deadlineErrs).isEmpty })

/-- Errors of `forwardComplaint`. -/
inductive ForwardError where
  | notFoundOrNotAuthorized
  | departmentNotFound
  | crossDistrict
deriving DecidableEq, Repr

/-- Success payload of `forwardComplaint`: the created forwarding record and
    the `emailSent` flag of the response. -/
structure ForwardOk where
  record : ForwardingRecord
  emailSent : Bool
deriving DecidableEq, Repr

/-- `forwardComplaint` (complaintController.js:421-508): find the complaint by
    id AND owning institution in one query (missing and foreign complaints
    get the same error); then the department by id; reject cross-district
    targets; on success append one forwarding record, point
    `assignedDepartment` at the department, and set status IN_PROGRESS
    unconditionally.  The COMPLAINT_FORWARDED dispatch outcome `notifyOk` is
    caught and ignored: the response always carries `emailSent: true`. -/
def forwardComplaint (actorId complaintId departmentId : Nat) (forwardingNote : String)
    (notifyOk : Bool) (s : Store) : Store × Except ForwardError ForwardOk :=
  match s.complaints.find? (fun c => c.id == complaintId && c.institutionId == actorId) with
  | none => (s, .error .notFoundOrNotAuthorized)
  | some c =>
    match s.departments.find? (fun d => d.id == departmentId) with
    | none => (s, .error .departmentNotFound)
    | some department =>
      if department.district ≠ c.district then (s, .error .crossDistrict)
      else
        let record : ForwardingRecord :=
          { complaintId := c.id
            fromInstitutionId := actorId
            toDepartmentId := department.id
            forwardingNote := forwardingNote }
        let c2 := { c with assignedDepartment := department.id, status := .IN_PROGRESS }
        ({ s with
             records := s.records ++ [record]
             complaints := s.complaints.map (fun x => if x.id == c.id then c2 else x) },
         .ok { record := record, emailSent := true })

/-- One lifecycle operation, with the identity of the acting user and the
    notification-dispatch outcomes it may consume. -/
inductive Op where
  | updStatus (now : Nat) (actorRole : String) (actorId complaintId : Nat)
      (status : Status) (resolutionDeadline : Option Nat) (rOk dOk : Bool)
  | updDeadline (now actorId complaintId : Nat) (newDeadline : Option Nat)
  | fwd (actorId complaintId departmentId : Nat) (note : String) (notifyOk : Bool)

/-- Effect of one operation on the store; a rejected request leaves the store
    untouched (every error return in the controllers precedes every save). -/
def applyOp (s : Store) (op : Op) : Store :=
  match op with
  | .updStatus now role aid cid st ndl r d =>
      (updateComplaintStatus now role aid cid st ndl r d s).1
  | .updDeadline now aid cid ndl =>
      (updateComplaintDeadline now aid cid ndl s).1
  | .fwd aid cid did note ok =>
      (forwardComplaint aid cid did note ok s).1

/-- Effect of a sequence of lifecycle operations. -/
def applyOps (s : Store) (ops : List Op) : Store :=
  ops.foldl applyOp s

/-- Per-institution performance number of `getInstitutions` (part_000:21-23):
    `totalComplaints > 0 ? (resolvedComplaints / totalComplaints) * 100 : 0`,
    an explicitly guarded resolution rate. -/
def institutionPerformance (totalComplaints resolvedComplaints : Nat) : ℚ :=
  if 0 < totalComplaints then ((resolvedComplaints : ℚ) / (totalComplaints : ℚ)) * 100
  else 0

/-- The RESOLVED test used throughout the aggregation. -/
def isResolved (c : Complaint) : Bool :=
  c.status == Status.RESOLVED

/-- The on-time test of the `resolvedOnTime` accumulator: RESOLVED and
    `resolutionDate ≤ resolutionDeadline` (a RESOLVED complaint carries a
    resolution timestamp; one without is counted late). -/
def resolvedOnTimeB (c : Complaint) : Bool :=
  isResolved c &&
    match c.resolutionDate with
    | some r => decide (r ≤ c.resolutionDeadline)
    | none => false

/-- One output row of the `getPerformance` aggregation pipeline. -/
structure PerfEntry where
  institutionId : Nat
  totalComplaints : Nat
  resolvedComplaints : Nat
  resolvedOnTime : Nat
  averageResolutionTime : Option ℚ
  resolutionRate : ℚ
  onTimeResolutionRate : ℚ
deriving DecidableEq, Repr

/-- The `$group` + `$project` stages of `getPerformance` (part_000:242-318)
    for one institution id over the `$match`-ed complaints: counts, the
    average resolution time in days over resolved complaints only ($avg over
    null-free values; the $round for display is omitted), the unguarded
    `resolutionRate` division, and the `max(resolved, 1)`-guarded on-time
    rate.  A `$group` stage only ever emits ids that occur in its input, so
    `totalComplaints` is positive on every emitted row. -/
def perfGroup (cs : List Complaint) (instId : Nat) : PerfEntry :=
  let mine := cs.filter (fun c => c.institutionId == instId)
  let resolvedList := mine.filter isResolved
  let resolved := resolvedList.length
  { institutionId := instId
    totalComplaints := mine.length
    resolvedComplaints := resolved
    resolvedOnTime := (mine.filter resolvedOnTimeB).length
    averageResolutionTime :=
      if resolved = 0 then none
      else some
        ((resolvedList.map (fun c =>
            (((c.resolutionDate.getD 0 : ℚ) - (c.submissionDate : ℚ)) / (dayLength : ℚ)))).sum
          / (resolved : ℚ))
    resolutionRate := ((resolved : ℚ) / (mine.length : ℚ)) * 100
    onTimeResolutionRate :=
      (((mine.filter resolvedOnTimeB).length : ℚ) / ((max resolved 1 : Nat) : ℚ)) * 100 }

/-- `getPerformance` (part_000:207-322): filter complaints to the window (the
    `$match` lower bound on the submission timestamp, precomputed by the
    timeframe switch; `none` is all-time), group them by institution id, and
    sort the rows by descending on-time rate. -/
def getPerformance (windowStart : Option Nat) (cs : List Complaint) : List PerfEntry :=
  let matched := cs.filter (fun c =>
    match windowStart with
    | none => true
    | some w => decide (w ≤ c.submissionDate))
  let ids := (matched.map (fun c => c.institutionId)).dedup
  (ids.map (perfGroup matched)).mergeSort
    (fun a b => decide (b.onTimeResolutionRate ≤ a.onTimeResolutionRate))

/-- The spec's biconditional invariant: the resolution timestamp is present
    iff the status is RESOLVED. -/
def timestampIffResolved (s : Store) : Prop :=
  ∀ c ∈ s.complaints, (c.resolutionDate.isSome ↔ c.status = Status.RESOLVED)

/-- The one direction that the code maintains: a RESOLVED complaint always
    carries a resolution timestamp. -/
def resolvedHasTimestamp (s : Store) : Prop :=
  ∀ c ∈ s.complaints, c.status = Status.RESOLVED → c.resolutionDate.isSome

/-! ### Concrete sample data, used by witnesses and counterexamples -/

/-- A complaint that has been resolved (timestamp 5), owned by institution 1,
    in district `"d1"`. -/
def exResolved : Complaint :=
  { id := 1, title := "t", description := "x", category := "WATER", province := "p",
    district := "d1", citizenId := 7, institutionId := 1, assignedDepartment := 1,
    status := .RESOLVED, submissionDate := 0, resolutionDeadline := 100,
    resolutionDate := some 5 }

/-- A department in the same district as `exResolved`. -/
def exDept : Department := { id := 2, district := "d1" }

/-- A store holding the resolved complaint and the matching department. -/
def exStore : Store := { complaints := [exResolved], departments := [exDept], records := [] }

/-- A pending complaint owned by institution 1, not yet resolved. -/
def exPending : Complaint :=
  { exResolved with id := 3, status := .PENDING, resolutionDate := none }

/-- A store holding only the pending complaint. -/
def exPendingStore : Store :=
  { complaints := [exPending], departments := [exDept], records := [] }

/-- An institution user registered for province `"p"`, district `"d1"`. -/
def exInstitution : User := { id := 1, role := "institution", province := "p", district := "d1" }

/-- The forwarding record produced by forwarding `exResolved` to `exDept`. -/
def exRecord : ForwardingRecord :=
  { complaintId := 1, fromInstitutionId := 1, toDepartmentId := 2, forwardingNote := "n" }

/-- The store after that forward. -/
def exForwardedStore : Store :=
  { complaints := [{ exResolved with assignedDepartment := 2, status := .IN_PROGRESS }],
    departments := [exDept], records := [exRecord] }

/-- The response payload of that forward. -/
def exForwardOk : ForwardOk := { record := exRecord, emailSent := true }



/-! ### Claim theorems -/
/-- Claim C7 (confirmed): `calculateResolutionDeadline` is deterministic and total,
    adding exactly 3 whole days to the current instant for WATER and ELECTRICITY,
    2 days for PUBLIC_SAFETY, 7 days for ROADS and SANITATION, and 14 days for
    every other category, with no error condition. -/
theorem claim_C7_deadline_policy (category : String) (now : Nat) :
    ((category = "WATER" ∨ category = "ELECTRICITY") →
      calculateResolutionDeadline category now = now + 3 * dayLength) ∧
    (category = "PUBLIC_SAFETY" →
      calculateResolutionDeadline category now = now + 2 * dayLength) ∧
    ((category = "ROADS" ∨ category = "SANITATION") →
      calculateResolutionDeadline category now = now + 7 * dayLength) ∧
    (category ≠ "WATER" → category ≠ "ELECTRICITY" → category ≠ "PUBLIC_SAFETY" →
      category ≠ "ROADS" → category ≠ "SANITATION" →
      calculateResolutionDeadline category now = now + 14 * dayLength) := by
  refine ⟨?_, ?_, ?_, ?_⟩
  · rintro (rfl | rfl) <;> rfl
  · rintro rfl; rfl
  · rintro (rfl | rfl) <;> rfl
  · intro h1 h2 h3 h4 h5
    unfold calculateResolutionDeadline
    split <;> simp_all

/-- Witness for C7: the WATER deadline at time 0 is exactly 3 days. -/
theorem claim_C7_witness :
    calculateResolutionDeadline "WATER" 0 = 0 + 3 * dayLength :=
  (claim_C7_deadline_policy "WATER" 0).1 (Or.inl rfl)

/-- Claim C6 (confirmed): the assignment resolver first returns an institution
    scoped to the exact (province, district) pair when one exists; otherwise an
    institution scoped to the province alone; and when no institution exists in
    the province it returns nothing and complaint submission fails with the
    no-institution domain error without creating a complaint. -/
theorem claim_C6_assignment_resolver (users : List User) (category province district : String) :
    ((∃ u ∈ users, u.role = "institution" ∧ u.province = province ∧ u.district = district) →
      ∃ u, findAppropriateInstitution users category province district = some u ∧
        u.role = "institution" ∧ u.province = province ∧ u.district = district) ∧
    ((∀ u ∈ users, ¬(u.role = "institution" ∧ u.province = province ∧ u.district = district)) →
      (∃ u ∈ users, u.role = "institution" ∧ u.province = province) →
      ∃ u, findAppropriateInstitution users category province district = some u ∧
        u.role = "institution" ∧ u.province = province) ∧
    ((∀ u ∈ users, ¬(u.role = "institution" ∧ u.province = province)) →
      findAppropriateInstitution users category province district = none) ∧
    (∀ (now actorId newId : Nat) (title description : String) (notifyOk : Bool) (s : Store),
      findAppropriateInstitution users category province district = none →
      submitComplaint now "citizen" actorId title description category province district
        users newId notifyOk s = (s, .error .noInstitutionFound)) := by
  refine ⟨?_, ?_, ?_, ?_⟩
  · rintro ⟨u, hu, hr, hp, hd⟩
    have hsome : (users.find? (fun u =>
        u.role == "institution" && u.province == province && u.district == district)).isSome :=
      List.find?_isSome.mpr ⟨u, hu, by simp [hr, hp, hd]⟩
    obtain ⟨v, hv⟩ := Option.isSome_iff_exists.mp hsome
    have hp2 := List.find?_some hv
    simp only [Bool.and_eq_true, beq_iff_eq] at hp2
    exact ⟨v, by simp [findAppropriateInstitution, hv], hp2.1.1, hp2.1.2, hp2.2⟩
  · rintro hnone ⟨u, hu, hr, hp⟩
    have hfstnone : users.find? (fun u =>
        u.role == "institution" && u.province == province && u.district == district) = none := by
      rw [List.find?_eq_none]
      intro x hx
      have := hnone x hx
      simp only [Bool.and_eq_true, beq_iff_eq]
      rintro ⟨⟨ha, hb⟩, hc⟩
      exact this ⟨ha, hb, hc⟩
    have hsome : (users.find? (fun u =>
        u.role == "institution" && u.province == province)).isSome :=
      List.find?_isSome.mpr ⟨u, hu, by simp [hr, hp]⟩
    obtain ⟨v, hv⟩ := Option.isSome_iff_exists.mp hsome
    have hp2 := List.find?_some hv
    simp only [Bool.and_eq_true, beq_iff_eq] at hp2
    exact ⟨v, by simp [findAppropriateInstitution, hfstnone, hv], hp2.1, hp2.2⟩
  · intro hnone
    have hfstnone : users.find? (fun u =>
        u.role == "institution" && u.province == province && u.district == district) = none := by
      rw [List.find?_eq_none]
      intro x hx
      have := hnone x hx
      simp only [Bool.and_eq_true, beq_iff_eq]
      rintro ⟨⟨ha, hb⟩, _⟩
      exact this ⟨ha, hb⟩
    have hsndnone : users.find? (fun u =>
        u.role == "institution" && u.province == province) = none := by
      rw [List.find?_eq_none]
      intro x hx
      have := hnone x hx
      simp only [Bool.and_eq_true, beq_iff_eq]
      rintro ⟨ha, hb⟩
      exact this ⟨ha, hb⟩
    simp [findAppropriateInstitution, hfstnone, hsndnone]
  · intro now actorId newId title description notifyOk s hnone
    simp [submitComplaint, hnone]

/-- Witness for C6: with one registered institution matching exactly, the
    resolver returns an exact (province, district) match. -/
theorem claim_C6_witness :
    ∃ u, findAppropriateInstitution [exInstitution] "WATER" "p" "d1" = some u ∧
      u.role = "institution" ∧ u.province = "p" ∧ u.district = "d1" :=
  (claim_C6_assignment_resolver [exInstitution] "WATER" "p" "d1").1
    ⟨exInstitution, by decide, by decide, by decide, by decide⟩

/-- Claim C3 (corrected): the deadline update is rejected with the validation
    error exactly when the supplied deadline is falsy (absent or zero) or
    STRICTLY BEFORE now (the code compares with `<`, so a deadline equal to the
    update instant is accepted); every truthy deadline `d ≥ now` on a complaint
    owned by the acting institution succeeds and persists `d`. -/
theorem claim_C3_amended (now actorId complaintId : Nat) (newDeadline : Option Nat) (s : Store) :
    ((deadlineTruthy newDeadline = false ∨ newDeadline.getD 0 < now) →
      updateComplaintDeadline now actorId complaintId newDeadline s =
        (s, .error .invalidDeadline)) ∧
    (∀ d c, newDeadline = some d → 0 < d → now ≤ d →
      s.complaints.find? (fun x => x.id == complaintId && x.institutionId == actorId) = some c →
      updateComplaintDeadline now actorId complaintId newDeadline s =
        ({ s with
            complaints :=
              s.complaints.map (fun x =>
                if x.id == c.id then { c with resolutionDeadline := d } else x) },
         .ok { c with resolutionDeadline := d })) := by
  constructor
  · rintro (hf | hlt)
    · simp [updateComplaintDeadline, hf]
    · simp [updateComplaintDeadline, hlt]
  · rintro d c rfl hpos hge hfind
    have htr : deadlineTruthy (some d) = true := by
      simp only [deadlineTruthy, bne_iff_ne, ne_eq, decide_eq_true_eq]
      omega
    have hdec : decide ((some d).getD 0 < now) = false := by
      apply decide_eq_false
      simp only [Option.getD_some]
      omega
    simp [updateComplaintDeadline, htr, hdec, hfind]
    omega

/-- Witness for C3: a future deadline (200 > now = 50) is accepted and
    persisted on the owned complaint. -/
theorem claim_C3_witness :
    updateComplaintDeadline 50 1 1 (some 200) exStore =
      ({ exStore with complaints := [{ exResolved with resolutionDeadline := 200 }] },
       .ok { exResolved with resolutionDeadline := 200 }) := by
  have h := (claim_C3_amended 50 1 1 (some 200) exStore).2 200 exResolved rfl
    (by decide) (by decide) (by decide)
  simpa using h

/-- Counterexample for C3 as stated: with `d = now = 100` (so `d ≤ now`), the
    update is NOT rejected — it succeeds and persists 100. -/
theorem claim_C3_counterexample :
    (updateComplaintDeadline 100 1 1 (some 100) exStore).2 =
      .ok { exResolved with resolutionDeadline := 100 } ∧
    (updateComplaintDeadline 100 1 1 (some 100) exStore).2 ≠
      .error DeadlineError.invalidDeadline := by
  decide

/-- Claim C10 (confirmed): the status-update operation persists any supplied
    truthy `resolutionDeadline` with no strictly-in-the-future validation; in
    particular a deadline `d ≤ now` succeeds and the complaint's deadline
    becomes a past timestamp, bypassing the check of the dedicated
    deadline-update endpoint. -/
theorem claim_C10_status_update_bypasses_deadline_validation
    (now actorId complaintId d : Nat) (st : Status) (rOk dOk : Bool) (s : Store)
    (c : Complaint) :
    s.complaints.find? (fun x => x.id == complaintId) = some c →
    c.institutionId = actorId →
    0 < d → d ≤ now →
    ∃ s2 o,
      updateComplaintStatus now "institution" actorId complaintId st (some d) rOk dOk s
        = (s2, .ok o) ∧
      o.complaint.resolutionDeadline = d ∧
      o.complaint ∈ s2.complaints := by
  intro hfind hown hpos _
  have htr : deadlineTruthy (some d) = true := by
    simp only [deadlineTruthy, bne_iff_ne, ne_eq, decide_eq_true_eq]
    omega
  have hc : c ∈ s.complaints := List.mem_of_find?_eq_some hfind
  simp only [updateComplaintStatus, hfind, htr, hown, ne_eq, not_true_eq_false, if_false,
    ite_false, ite_true, if_true, Option.getD_some]
  refine ⟨_, _, rfl, ?_, ?_⟩
  · by_cases hst : st = Status.RESOLVED <;> simp [hst]
  · refine List.mem_map.mpr ⟨c, hc, ?_⟩
    simp


/-- Witness for C10: deadline 50 with now = 100 is persisted by the status
    update. -/
theorem claim_C10_witness :
    ∃ s2 o,
      updateComplaintStatus 100 "institution" 1 1 Status.IN_PROGRESS (some 50) true true exStore
        = (s2, .ok o) ∧
      o.complaint.resolutionDeadline = 50 ∧
      o.complaint ∈ s2.complaints :=
  claim_C10_status_update_bypasses_deadline_validation 100 1 1 50 Status.IN_PROGRESS true true
    exStore exResolved (by decide) (by decide) (by decide) (by decide)

/-- Claim C2 (corrected): re-resolving an already-RESOLVED complaint is NOT a
    no-op on the timestamp — the code unconditionally restamps
    `resolutionDate := now` on every RESOLVED update, so the stored timestamp
    equals the prior value `t` only when the second update happens at `t`. -/
theorem claim_C2_amended (now actorId complaintId t : Nat) (rOk dOk : Bool) (s : Store)
    (c : Complaint) :
    s.complaints.find? (fun x => x.id == complaintId) = some c →
    c.institutionId = actorId →
    c.status = Status.RESOLVED →
    c.resolutionDate = some t →
    ∃ s2 o,
      updateComplaintStatus now "institution" actorId complaintId Status.RESOLVED none
        rOk dOk s = (s2, .ok o) ∧
      o.complaint.resolutionDate = some now := by
  intro hfind hown _ _
  simp only [updateComplaintStatus, hfind, hown, deadlineTruthy, ne_eq, not_true_eq_false,
    if_false, ite_false, ite_true, if_true]
  refine ⟨_, _, rfl, ?_⟩
  simp

/-- Witness for C2: re-resolving the complaint (resolved at 5) at now = 10
    yields resolution timestamp 10. -/
theorem claim_C2_witness :
    ∃ s2 o,
      updateComplaintStatus 10 "institution" 1 1 Status.RESOLVED none true true exStore
        = (s2, .ok o) ∧
      o.complaint.resolutionDate = some 10 :=
  claim_C2_amended 10 1 1 5 true true exStore exResolved (by decide) (by decide)
    (by decide) (by decide)

/-- Counterexample for C2 as stated: the complaint resolved at 5, re-resolved
    at now = 10, ends with timestamp 10 ≠ 5 — the second RESOLVED transition
    changed the timestamp. -/
theorem claim_C2_counterexample :
    exResolved.status = Status.RESOLVED ∧
    exResolved.resolutionDate = some 5 ∧
    (updateComplaintStatus 10 "institution" 1 1 Status.RESOLVED none true true exStore).2 =
      .ok { complaint := { exResolved with resolutionDate := some 10 },
            notificationSuccess := true } ∧
    ({ exResolved with resolutionDate := some 10 }).resolutionDate ≠
      exResolved.resolutionDate := by
  decide

/-- Claim C4 (confirmed): every successful forward creates exactly one new
    forwarding record (appended to the collection), sets the complaint's
    `assignedDepartment` to the target department, and sets its status to
    IN_PROGRESS unconditionally — with no hypothesis on the prior status,
    RESOLVED included. -/
theorem claim_C4_forward_success_effects
    (actorId complaintId departmentId : Nat) (note : String) (notifyOk : Bool)
    (s s2 : Store) (o : ForwardOk) :
    forwardComplaint actorId complaintId departmentId note notifyOk s = (s2, .ok o) →
    s2.records = s.records ++ [o.record] ∧
    ∃ c, s.complaints.find? (fun x => x.id == complaintId && x.institutionId == actorId)
        = some c ∧
      o.record = { complaintId := c.id, fromInstitutionId := actorId,
                   toDepartmentId := departmentId, forwardingNote := note } ∧
      { c with assignedDepartment := departmentId, status := Status.IN_PROGRESS }
        ∈ s2.complaints := by
  intro h
  unfold forwardComplaint at h
  cases hf : s.complaints.find? (fun x => x.id == complaintId && x.institutionId == actorId) with
  | none =>
    rw [hf] at h
    injection h with h1 h2
    simp at h2
  | some c =>
    rw [hf] at h
    cases hd : s.departments.find? (fun x => x.id == departmentId) with
    | none =>
      rw [hd] at h
      injection h with h1 h2
      simp at h2
    | some dep =>
      rw [hd] at h
      dsimp only at h
      by_cases hdist : dep.district ≠ c.district
      · rw [if_pos hdist] at h
        injection h with h1 h2
        simp at h2
      · rw [if_neg hdist] at h
        injection h with h1 h2
        injection h2 with h2
        have hdep : dep.id = departmentId := by
          have := List.find?_some hd
          simpa using this
        have hc : c ∈ s.complaints := List.mem_of_find?_eq_some hf
        subst h1
        subst h2
        refine ⟨by simp, c, rfl, by simp [hdep], ?_⟩
        refine List.mem_map.mpr ⟨c, hc, ?_⟩
        simp [hdep]

/-- Claim C5 (confirmed): forward checks its preconditions in order with a
    distinct error each — (1) a missing complaint and a complaint owned by a
    different institution produce the same combined not-found/not-authorized
    error; (2) then a missing department its own error; (3) then a district
    mismatch the cross-district rejection; and every failure leaves the store
    (records and complaints) unchanged. -/
theorem claim_C5_forward_precondition_order
    (actorId complaintId departmentId : Nat) (note : String) (notifyOk : Bool) (s : Store) :
    ((∀ c ∈ s.complaints, ¬(c.id = complaintId ∧ c.institutionId = actorId)) →
      forwardComplaint actorId complaintId departmentId note notifyOk s =
        (s, .error .notFoundOrNotAuthorized)) ∧
    (∀ c, s.complaints.find? (fun x => x.id == complaintId && x.institutionId == actorId)
        = some c →
      s.departments.find? (fun x => x.id == departmentId) = none →
      forwardComplaint actorId complaintId departmentId note notifyOk s =
        (s, .error .departmentNotFound)) ∧
    (∀ c dep, s.complaints.find? (fun x => x.id == complaintId && x.institutionId == actorId)
        = some c →
      s.departments.find? (fun x => x.id == departmentId) = some dep →
      dep.district ≠ c.district →
      forwardComplaint actorId complaintId departmentId note notifyOk s =
        (s, .error .crossDistrict)) ∧
    (∀ s2 e, forwardComplaint actorId complaintId departmentId note notifyOk s
        = (s2, .error e) → s2 = s) := by
  refine ⟨?_, ?_, ?_, ?_⟩
  · intro hnone
    have hfnone : s.complaints.find?
        (fun x => x.id == complaintId && x.institutionId == actorId) = none := by
      rw [List.find?_eq_none]
      intro x hx
      have := hnone x hx
      simp only [Bool.and_eq_true, beq_iff_eq]
      rintro ⟨ha, hb⟩
      exact this ⟨ha, hb⟩
    simp [forwardComplaint, hfnone]
  · intro c hfind hdept
    simp [forwardComplaint, hfind, hdept]
  · intro c dep hfind hdept hdist
    simp only [forwardComplaint, hfind, hdept]
    rw [if_pos hdist]
  · intro s2 e h
    unfold forwardComplaint at h
    cases hf : s.complaints.find?
        (fun x => x.id == complaintId && x.institutionId == actorId) with
    | none =>
      rw [hf] at h
      injection h with h1 h2
      exact h1.symm
    | some c =>
      rw [hf] at h
      cases hd : s.departments.find? (fun x => x.id == departmentId) with
      | none =>
        rw [hd] at h
        injection h with h1 h2
        exact h1.symm
      | some dep =>
        rw [hd] at h
        dsimp only at h
        by_cases hdist : dep.district ≠ c.district
        · rw [if_pos hdist] at h
          injection h with h1 h2
          exact h1.symm
        · rw [if_neg hdist] at h
          injection h with h1 h2
          simp at h2

/-- Witness for C5: forwarding a nonexistent complaint in the empty store
    fails with the combined not-found/not-authorized error and changes
    nothing. -/
theorem claim_C5_witness :
    forwardComplaint 1 1 2 "n" true { complaints := [], departments := [], records := [] } =
      ({ complaints := [], departments := [], records := [] },
       .error ForwardError.notFoundOrNotAuthorized) :=
  (claim_C5_forward_precondition_order 1 1 2 "n" true
    { complaints := [], departments := [], records := [] }).1 (by decide)


/-- Witness for C4: forwarding the RESOLVED complaint of `exStore` to
    department 2 appends one record and downgrades the status to
    IN_PROGRESS. -/
theorem claim_C4_witness :
    exForwardedStore.records = exStore.records ++ [exForwardOk.record] ∧
    ∃ c, exStore.complaints.find? (fun x => x.id == 1 && x.institutionId == 1) = some c ∧
      exForwardOk.record = { complaintId := c.id, fromInstitutionId := 1,
                             toDepartmentId := 2, forwardingNote := "n" } ∧
      { c with assignedDepartment := 2, status := Status.IN_PROGRESS }
        ∈ exForwardedStore.complaints :=
  claim_C4_forward_success_effects 1 1 2 "n" true exStore exForwardedStore exForwardOk
    (by decide)

/-- Claim C8 (confirmed): the per-institution resolution rate is total over
    all inputs — the `getInstitutions` statistic is explicitly guarded
    (0 when `totalComplaints = 0`, the ratio times 100 otherwise), and every
    row the `getPerformance` aggregation emits has `totalComplaints > 0`
    (a group only exists for institution ids occurring among the matched
    complaints), so its unguarded division never sees a zero denominator. -/
theorem claim_C8_resolution_rate_total
    (windowStart : Option Nat) (cs : List Complaint) (total resolved : Nat) :
    ((total = 0 → institutionPerformance total resolved = 0) ∧
     (0 < total →
       institutionPerformance total resolved = ((resolved : ℚ) / (total : ℚ)) * 100)) ∧
    (∀ p ∈ getPerformance windowStart cs,
      0 < p.totalComplaints ∧
      p.resolutionRate = ((p.resolvedComplaints : ℚ) / (p.totalComplaints : ℚ)) * 100) := by
  refine ⟨⟨?_, ?_⟩, ?_⟩
  · intro h
    simp [institutionPerformance, h]
  · intro h
    simp [institutionPerformance, h]
  · intro p hp
    simp only [getPerformance, List.mem_mergeSort] at hp
    obtain ⟨i, hi, rfl⟩ := List.mem_map.mp hp
    rw [List.mem_dedup] at hi
    obtain ⟨c, hc, hci⟩ := List.mem_map.mp hi
    constructor
    · have hmem : c ∈ (cs.filter (fun c =>
          match windowStart with
          | none => true
          | some w => decide (w ≤ c.submissionDate))).filter (fun x => x.institutionId == i) :=
        List.mem_filter.mpr ⟨hc, by simp [hci]⟩
      simpa [perfGroup] using List.length_pos_of_mem hmem
    · simp [perfGroup]

/-- Witness for C8: the guarded statistic yields 0 for an institution with no
    complaints. -/
theorem claim_C8_witness : institutionPerformance 0 5 = 0 :=
  ((claim_C8_resolution_rate_total none [] 0 5).1).1 rfl


/-- Claim C9 (corrected): notification failure is always non-fatal — the
    persisted store and the success of the primary mutation are independent of
    the dispatch outcomes, and `updateComplaintStatus` reports the outcome
    truthfully via `notificationStatus.success` — but `forwardComplaint`
    always responds `emailSent = true`, even when the dispatch failed, so the
    forward response flag is NOT truthful. -/
theorem claim_C9_amended
    (now actorId complaintId departmentId : Nat) (note actorRole : String)
    (st : Status) (ndl : Option Nat) (r1 d1 r2 d2 : Bool) (s : Store) :
    (forwardComplaint actorId complaintId departmentId note r1 s =
      forwardComplaint actorId complaintId departmentId note r2 s) ∧
    (∀ s2 o, forwardComplaint actorId complaintId departmentId note r1 s = (s2, .ok o) →
      o.emailSent = true) ∧
    ((updateComplaintStatus now actorRole actorId complaintId st ndl r1 d1 s).1 =
      (updateComplaintStatus now actorRole actorId complaintId st ndl r2 d2 s).1) ∧
    ((updateComplaintStatus now actorRole actorId complaintId st ndl r1 d1 s).2.toOption.isSome
      = (updateComplaintStatus now actorRole actorId complaintId st ndl
          r2 d2 s).2.toOption.isSome) ∧
    (∀ s2 o, updateComplaintStatus now actorRole actorId complaintId st ndl r1 d1 s
        = (s2, .ok o) →
      (o.notificationSuccess = true ↔
        ((st = Status.RESOLVED → r1 = true) ∧ (deadlineTruthy ndl = true → d1 = true)))) := by
  refine ⟨rfl, ?_, ?_, ?_, ?_⟩
  · intro s2 o h
    unfold forwardComplaint at h
    cases hf : s.complaints.find?
        (fun x => x.id == complaintId && x.institutionId == actorId) with
    | none =>
      rw [hf] at h
      injection h with h1 h2
      simp at h2
    | some c =>
      rw [hf] at h
      cases hd : s.departments.find? (fun x => x.id == departmentId) with
      | none =>
        rw [hd] at h
        injection h with h1 h2
        simp at h2
      | some dep =>
        rw [hd] at h
        dsimp only at h
        by_cases hdist : dep.district ≠ c.district
        · rw [if_pos hdist] at h
          injection h with h1 h2
          simp at h2
        · rw [if_neg hdist] at h
          injection h with h1 h2
          injection h2 with h2
          rw [← h2]
  · by_cases hrole : actorRole = "institution"
    · cases hfind : s.complaints.find? (fun c => c.id == complaintId) with
      | none => simp [updateComplaintStatus, hrole, hfind]
      | some c =>
        by_cases hown : c.institutionId = actorId
        · simp [updateComplaintStatus, hrole, hfind, hown]
        · simp [updateComplaintStatus, hrole, hfind, hown]
    · simp [updateComplaintStatus, hrole]
  · by_cases hrole : actorRole = "institution"
    · cases hfind : s.complaints.find? (fun c => c.id == complaintId) with
      | none => simp [updateComplaintStatus, hrole, hfind, Except.toOption]
      | some c =>
        by_cases hown : c.institutionId = actorId
        · simp [updateComplaintStatus, hrole, hfind, hown, Except.toOption]
        · simp [updateComplaintStatus, hrole, hfind, hown, Except.toOption]
    · simp [updateComplaintStatus, hrole, Except.toOption]
  · intro s2 o h
    unfold updateComplaintStatus at h
    by_cases hrole : actorRole = "institution"
    · rw [if_neg (by simp [hrole])] at h
      cases hfind : s.complaints.find? (fun c => c.id == complaintId) with
      | none =>
        rw [hfind] at h
        injection h with h1 h2
        simp at h2
      | some c =>
        rw [hfind] at h
        dsimp only at h
        by_cases hown : c.institutionId ≠ actorId
        · rw [if_pos hown] at h
          injection h with h1 h2
          simp at h2
        · rw [if_neg hown] at h
          injection h with h1 h2
          injection h2 with h2
          rw [← h2]
          by_cases hst : st = Status.RESOLVED <;>
            by_cases htr : deadlineTruthy ndl = true <;>
              cases r1 <;> cases d1 <;>
                simp [hst, htr]
    · rw [if_pos (by simp [hrole])] at h
      injection h with h1 h2
      simp at h2

/-- Witness for C9: a failed RESOLVED dispatch does not change whether the
    status update succeeds. -/
theorem claim_C9_witness :
    ((updateComplaintStatus 10 "institution" 1 1 Status.RESOLVED none false true
        exStore).2.toOption.isSome) =
    ((updateComplaintStatus 10 "institution" 1 1 Status.RESOLVED none true true
        exStore).2.toOption.isSome) :=
  (claim_C9_amended 10 1 1 2 "n" "institution" Status.RESOLVED none false true true true
    exStore).2.2.2.1

/-- Counterexample for C9 as stated: forwarding with a failed dispatch
    (`notifyOk` false) still responds `emailSent = true` — the flag does not
    indicate the failure. -/
theorem claim_C9_counterexample :
    (forwardComplaint 1 1 2 "n" false exStore).2 = .ok exForwardOk ∧
    exForwardOk.emailSent = true := by
  decide


/-- Pointwise property preservation for the save-by-replace pattern
    (`complaints.map (fun x => if x.id == k then c2 else x)`). -/
theorem mem_replaceMap {l : List Complaint} {P : Complaint → Prop}
    (h : ∀ x ∈ l, P x) {c2 : Complaint} (hc2 : P c2) (k : Nat) :
    ∀ x ∈ l.map (fun x => if x.id == k then c2 else x), P x := by
  intro x hx
  obtain ⟨y, hy, rfl⟩ := List.mem_map.mp hx
  by_cases hid : (y.id == k) = true
  · simpa [hid] using hc2
  · simpa [hid] using h y hy

/-- Every single lifecycle operation preserves the direction
    "RESOLVED implies timestamp present". -/
theorem applyOp_preserves_resolvedHasTimestamp (s : Store) (op : Op)
    (h : resolvedHasTimestamp s) : resolvedHasTimestamp (applyOp s op) := by
  unfold resolvedHasTimestamp at h ⊢
  cases op with
  | updStatus now role aid cid st ndl r d =>
    simp only [applyOp]
    by_cases hrole : role = "institution"
    · cases hfind : s.complaints.find? (fun c => c.id == cid) with
      | none => simpa [updateComplaintStatus, hrole, hfind] using h
      | some c =>
        by_cases hown : c.institutionId = aid
        · simp only [updateComplaintStatus, hrole, hfind, hown, ne_eq, not_true_eq_false,
            if_false, ite_false, ite_true, if_true]
          apply mem_replaceMap h
          by_cases hst : st = Status.RESOLVED <;>
            by_cases htr : deadlineTruthy ndl = true <;>
              simp [hst, htr]
        · simpa [updateComplaintStatus, hrole, hfind, hown] using h
    · simpa [updateComplaintStatus, hrole] using h
  | updDeadline now aid cid ndl =>
    simp only [applyOp]
    by_cases hval : (!(deadlineTruthy ndl) || decide (ndl.getD 0 < now)) = true
    · simpa [updateComplaintDeadline, hval] using h
    · cases hfind : s.complaints.find? (fun c => c.id == cid && c.institutionId == aid) with
      | none => simpa [updateComplaintDeadline, hval, hfind] using h
      | some c =>
        simp only [Bool.not_eq_true] at hval
        simp only [updateComplaintDeadline, hval, hfind, Bool.false_eq_true, if_false,
          ite_false]
        apply mem_replaceMap h
        have hc := h c (List.mem_of_find?_eq_some hfind)
        simpa using hc
  | fwd aid cid did note ok =>
    simp only [applyOp]
    cases hf : s.complaints.find? (fun c => c.id == cid && c.institutionId == aid) with
    | none => simpa [forwardComplaint, hf] using h
    | some c =>
      cases hd : s.departments.find? (fun x => x.id == did) with
      | none => simpa [forwardComplaint, hf, hd] using h
      | some dep =>
        by_cases hdist : dep.district ≠ c.district
        · simp only [forwardComplaint, hf, hd]
          rw [if_pos hdist]
          exact h
        · simp only [forwardComplaint, hf, hd]
          rw [if_neg hdist]
          apply mem_replaceMap h
          simp

/-- Claim C1 (corrected): only one direction of the spec's biconditional is an
    invariant of every sequence of lifecycle operations — a RESOLVED complaint
    always carries a resolution timestamp.  The converse fails: no operation
    ever clears `resolutionDate`, so moving a complaint out of RESOLVED
    (forwarding it, or a status update to PENDING/IN_PROGRESS) leaves a stale
    timestamp on a non-RESOLVED complaint. -/
theorem claim_C1_amended (s : Store) (ops : List Op) (h : resolvedHasTimestamp s) :
    resolvedHasTimestamp (applyOps s ops) := by
  induction ops generalizing s with
  | nil => simpa [applyOps] using h
  | cons op rest ih =>
    have h1 := applyOp_preserves_resolvedHasTimestamp s op h
    simpa [applyOps, List.foldl_cons] using ih (applyOp s op) h1

/-- Witness for C1: the preserved direction holds concretely after forwarding
    the resolved complaint. -/
theorem claim_C1_witness :
    resolvedHasTimestamp (applyOps exStore [Op.fwd 1 1 2 "n" true]) :=
  claim_C1_amended exStore [Op.fwd 1 1 2 "n" true]
    (by unfold resolvedHasTimestamp; decide)

/-- Counterexample for C1 as stated: `exStore` satisfies the biconditional,
    but after forwarding its RESOLVED complaint the complaint is IN_PROGRESS
    while still carrying resolution timestamp 5, violating the
    biconditional. -/
theorem claim_C1_counterexample :
    timestampIffResolved exStore ∧
    ¬ timestampIffResolved (applyOps exStore [Op.fwd 1 1 2 "n" true]) := by
  unfold timestampIffResolved
  constructor
  · decide
  · decide

end CCMS
